import Mathlib

/-!
Verification of the cost-segregation depreciation engine
(`cost_seg/macrs_tables.py` and `cost_seg/cost_seg_calculator.py`).

Machine percentages are embedded as exact rationals (`ℚ`); Python's
decimal literals are written with the same digits.  Python `dict.get`
with a default of `0.0` is embedded as a total function returning `0`
outside the table's keys.  Functions that can `raise` are embedded in
the `Except String` monad, with the source's error messages.
-/

/-- Calendar date, mirroring Python's `datetime.date`: comparison of
`date` objects is lexicographic on (year, month, day). -/
structure SDate where
  year : ℤ
  month : ℤ
  day : ℤ
deriving DecidableEq

/-- Lexicographic order on dates, the order used by Python when a
`date` is compared with `<=`. -/
def SDate.le (a b : SDate) : Prop :=
  a.year < b.year ∨ (a.year = b.year ∧
    (a.month < b.month ∨ (a.month = b.month ∧ a.day ≤ b.day)))

instance (a b : SDate) : Decidable (SDate.le a b) := by
  unfold SDate.le
  infer_instance

/-- Bonus-depreciation period, an entry of `BONUS_SCHEDULE`
(`cost_seg_calculator.py` lines 19-25).  The source's `end` field is
called `stop` here because `end` is a Lean keyword; `stop = none`
mirrors Python's `None`, meaning the range is open-ended. -/
structure BonusPeriod where
  start : SDate
  stop : Option SDate
  rate : ℚ

/-- The statutory bonus-depreciation schedule
(`cost_seg_calculator.py` lines 19-25). -/
def BONUS_SCHEDULE : List BonusPeriod :=
  [⟨⟨2025, 1, 20⟩, none, 100⟩,
   ⟨⟨2025, 1, 1⟩, some ⟨2025, 1, 19⟩, 40⟩,
   ⟨⟨2024, 1, 1⟩, some ⟨2024, 12, 31⟩, 60⟩,
   ⟨⟨2023, 1, 1⟩, some ⟨2023, 12, 31⟩, 80⟩,
   ⟨⟨2017, 9, 27⟩, some ⟨2022, 12, 31⟩, 100⟩]

/-- The loop body of `get_bonus_rate`: walk the schedule in order and
return the rate of the first matching period, else `0`. -/
def bonusRateAux : List BonusPeriod → SDate → ℚ
  | [], _ => 0
  | p :: ps, d =>
    match p.stop with
    | none => if SDate.le p.start d then p.rate else bonusRateAux ps d
    | some e =>
      if SDate.le p.start d ∧ SDate.le d e then p.rate else bonusRateAux ps d

/-- Embedding of `get_bonus_rate` (`cost_seg_calculator.py` lines
27-43): first matching range of `BONUS_SCHEDULE` wins, default `0`. -/
def get_bonus_rate (acquisitionDate : SDate) : ℚ :=
  bonusRateAux BONUS_SCHEDULE acquisitionDate

/-- Embedding of `MACRS_5YR_HY` (`macrs_tables.py` lines 8-15) together
with the `.get(year, 0.0)` access: unknown years give `0`. -/
def MACRS_5YR_HY (year : ℤ) : ℚ :=
  if year = 1 then 20.00
  else if year = 2 then 32.00
  else if year = 3 then 19.20
  else if year = 4 then 11.52
  else if year = 5 then 11.52
  else if year = 6 then 5.76
  else 0

/-- Embedding of `MACRS_7YR_HY` (`macrs_tables.py` lines 19-28). -/
def MACRS_7YR_HY (year : ℤ) : ℚ :=
  if year = 1 then 14.29
  else if year = 2 then 24.49
  else if year = 3 then 17.49
  else if year = 4 then 12.49
  else if year = 5 then 8.93
  else if year = 6 then 8.92
  else if year = 7 then 8.93
  else if year = 8 then 4.46
  else 0

/-- Embedding of `MACRS_15YR_HY` (`macrs_tables.py` lines 32-49). -/
def MACRS_15YR_HY (year : ℤ) : ℚ :=
  if year = 1 then 5.00
  else if year = 2 then 9.50
  else if year = 3 then 8.55
  else if year = 4 then 7.70
  else if year = 5 then 6.93
  else if year = 6 then 6.23
  else if year = 7 then 5.90
  else if year = 8 then 5.90
  else if year = 9 then 5.91
  else if year = 10 then 5.90
  else if year = 11 then 5.91
  else if year = 12 then 5.90
  else if year = 13 then 5.91
  else if year = 14 then 5.90
  else if year = 15 then 5.91
  else if year = 16 then 2.95
  else 0

/-- Year-1 row of `MACRS_27_5YR_MM` (`macrs_tables.py` lines 56-59). -/
def MACRS_27_5YR_MM_Y1 (month : ℤ) : ℚ :=
  if month = 1 then 3.485
  else if month = 2 then 3.182
  else if month = 3 then 2.879
  else if month = 4 then 2.576
  else if month = 5 then 2.273
  else if month = 6 then 1.970
  else if month = 7 then 1.667
  else if month = 8 then 1.364
  else if month = 9 then 1.061
  else if month = 10 then 0.758
  else if month = 11 then 0.455
  else if month = 12 then 0.152
  else 0

/-- Year-28 row of `MACRS_27_5YR_MM` (`macrs_tables.py` lines 63-66). -/
def MACRS_27_5YR_MM_Y28 (month : ℤ) : ℚ :=
  if month = 1 then 3.637
  else if 2 ≤ month ∧ month ≤ 12 then 3.636
  else 0

/-- Year-29 row of `MACRS_27_5YR_MM` (`macrs_tables.py` lines 67-70). -/
def MACRS_27_5YR_MM_Y29 (month : ℤ) : ℚ :=
  if month = 1 then 0.000
  else if month = 2 then 0.303
  else if month = 3 then 0.606
  else if month = 4 then 0.909
  else if month = 5 then 1.212
  else if month = 6 then 1.515
  else if month = 7 then 1.818
  else if month = 8 then 2.121
  else if month = 9 then 2.424
  else if month = 10 then 2.727
  else if month = 11 then 3.030
  else if month = 12 then 3.333
  else 0

/-- Embedding of `MACRS_27_5YR_MM` (`macrs_tables.py` lines 54-71) with
the nested `.get(year, {}).get(month, 0.0)` access.  Years 2-27 hold a
flat `3.636` for months 1-12 (the dict comprehension on line 61). -/
def MACRS_27_5YR_MM (year month : ℤ) : ℚ :=
  if year = 1 then MACRS_27_5YR_MM_Y1 month
  else if 2 ≤ year ∧ year ≤ 27 then
    (if 1 ≤ month ∧ month ≤ 12 then 3.636 else 0)
  else if year = 28 then MACRS_27_5YR_MM_Y28 month
  else if year = 29 then MACRS_27_5YR_MM_Y29 month
  else 0

/-- Year-1 row of `MACRS_39YR_MM` (`macrs_tables.py` lines 77-80). -/
def MACRS_39YR_MM_Y1 (month : ℤ) : ℚ :=
  if month = 1 then 2.461
  else if month = 2 then 2.247
  else if month = 3 then 2.033
  else if month = 4 then 1.819
  else if month = 5 then 1.605
  else if month = 6 then 1.391
  else if month = 7 then 1.177
  else if month = 8 then 0.963
  else if month = 9 then 0.749
  else if month = 10 then 0.535
  else if month = 11 then 0.321
  else if month = 12 then 0.107
  else 0

/-- Year-40 row of `MACRS_39YR_MM` (`macrs_tables.py` lines 84-87). -/
def MACRS_39YR_MM_Y40 (month : ℤ) : ℚ :=
  if month = 1 then 0.000
  else if month = 2 then 0.214
  else if month = 3 then 0.428
  else if month = 4 then 0.642
  else if month = 5 then 0.856
  else if month = 6 then 1.070
  else if month = 7 then 1.284
  else if month = 8 then 1.498
  else if month = 9 then 1.712
  else if month = 10 then 1.926
  else if month = 11 then 2.140
  else if month = 12 then 2.354
  else 0

/-- Embedding of `MACRS_39YR_MM` (`macrs_tables.py` lines 75-88); years
2-39 hold a flat `2.564` for months 1-12 (line 82). -/
def MACRS_39YR_MM (year month : ℤ) : ℚ :=
  if year = 1 then MACRS_39YR_MM_Y1 month
  else if 2 ≤ year ∧ year ≤ 39 then
    (if 1 ≤ month ∧ month ≤ 12 then 2.564 else 0)
  else if year = 40 then MACRS_39YR_MM_Y40 month
  else 0

/-- Embedding of `get_macrs_percentage` (`macrs_tables.py` lines
90-117).  The `raise ValueError` branches become `Except.error` with
the source's messages. -/
def get_macrs_percentage (assetClass : String) (year : ℤ)
    (month : Option ℤ) : Except String ℚ :=
  if assetClass = "5yr" then .ok (MACRS_5YR_HY year)
  else if assetClass = "7yr" then .ok (MACRS_7YR_HY year)
  else if assetClass = "15yr" then .ok (MACRS_15YR_HY year)
  else if assetClass = "27.5yr" then
    match month with
    | none => .error ("Month required for 27.5yr property")
    | some m => .ok (MACRS_27_5YR_MM year m)
  else if assetClass = "39yr" then
    match month with
    | none => .error ("Month required for 39yr property")
    | some m => .ok (MACRS_39YR_MM year m)
  else .error ("Unknown asset class: " ++ assetClass)

/-- The accumulation loop of `get_accumulated_depreciation`
(`macrs_tables.py` lines 131-134): `for year in range(1, years + 1)`
adding the per-year percentage, propagating any exception. For
`years ≤ 0` the loop body never runs, so the result is `0`. -/
def accumOver (g : ℤ → Except String ℚ) (years : ℤ) : Except String ℚ :=
  (List.range years.toNat).foldlM
    (fun (total : ℚ) (y : ℕ) => do
      let p ← g ((y : ℤ) + 1)
      pure (total + p)) 0

/-- Embedding of `get_accumulated_depreciation` (`macrs_tables.py`
lines 119-134). -/
def get_accumulated_depreciation (assetClass : String) (years : ℤ)
    (month : Option ℤ) : Except String ℚ :=
  accumOver (fun y => get_macrs_percentage assetClass y month) years

/-- Partial sums of a per-year percentage function: `sumTo v n` is the
sum of `v` over years `1..n`. -/
def sumTo (v : ℤ → ℚ) : ℕ → ℚ
  | 0 => 0
  | n + 1 => sumTo v n + v ((n : ℤ) + 1)

/-- The bonus-rate schedule as the claim states it: a piecewise
function of the calendar date, with the open-ended range checked
first.  This definition follows the spec's words and is compared with
the embedded `get_bonus_rate` below. -/
def bonusRateSpec (d : SDate) : ℚ :=
  if SDate.le ⟨2025, 1, 20⟩ d then 100
  else if SDate.le ⟨2025, 1, 1⟩ d ∧ SDate.le d ⟨2025, 1, 19⟩ then 40
  else if d.year = 2024 then 60
  else if d.year = 2023 then 80
  else if SDate.le ⟨2017, 9, 27⟩ d ∧ SDate.le d ⟨2022, 12, 31⟩ then 100
  else 0

/-- Modelled from the spec: the `macrs_tables` module imported by the
full-featured calculator
(`Claude_Code/RCGV_Quote_Assistant-main/cost_seg/cost_seg_calculator.py`)
is not present in the source tree (only its callers and tests are), and
it must contain an ADS 30-year table, since the calculator's own test
suite exercises the `30yr` class.  This is the ADS 30-year residential
straight-line mid-month table as the spec describes it: the year-1 and
final-year (year 31) percentages depend on the month placed in service,
interior years use the flat straight-line rate 100/30. -/
def MACRS_30YR_MM (year month : ℤ) : ℚ :=
  if 1 ≤ month ∧ month ≤ 12 then
    (if year = 1 then 10 / 3 * (25 - 2 * month) / 24
     else if 2 ≤ year ∧ year ≤ 30 then 10 / 3
     else if year = 31 then 10 / 3 * (2 * month - 1) / 24
     else 0)
  else 0

/-- Modelled from the spec: the ADS 40-year nonresidential
straight-line mid-month table (year-1 and year-41 percentages depend
on the month, interior years use the flat rate 100/40), missing from
the source tree together with the rest of the calculator's
`macrs_tables` module. -/
def MACRS_40YR_MM (year month : ℤ) : ℚ :=
  if 1 ≤ month ∧ month ≤ 12 then
    (if year = 1 then 5 / 2 * (25 - 2 * month) / 24
     else if 2 ≤ year ∧ year ≤ 40 then 5 / 2
     else if year = 41 then 5 / 2 * (2 * month - 1) / 24
     else 0)
  else 0

/-- Modelled from the spec: the `get_macrs_percentage` of the
calculator's missing `macrs_tables` module.  Its 5/7/15/27.5/39-year
tables are the ones reproduced in `cost_seg/macrs_tables.py` (the
spec describes a single MACRS-table component), extended with the ADS
`30yr` and `40yr` mid-month classes that the spec lists and the
calculator's tests exercise. -/
def get_macrs_percentage_rcgv (assetClass : String) (year : ℤ)
    (month : Option ℤ) : Except String ℚ :=
  if assetClass = "5yr" then .ok (MACRS_5YR_HY year)
  else if assetClass = "7yr" then .ok (MACRS_7YR_HY year)
  else if assetClass = "15yr" then .ok (MACRS_15YR_HY year)
  else if assetClass = "27.5yr" then
    match month with
    | none => .error ("Month required for 27.5yr property")
    | some m => .ok (MACRS_27_5YR_MM year m)
  else if assetClass = "39yr" then
    match month with
    | none => .error ("Month required for 39yr property")
    | some m => .ok (MACRS_39YR_MM year m)
  else if assetClass = "30yr" then
    match month with
    | none => .error ("Month required for 30yr property")
    | some m => .ok (MACRS_30YR_MM year m)
  else if assetClass = "40yr" then
    match month with
    | none => .error ("Month required for 40yr property")
    | some m => .ok (MACRS_40YR_MM year m)
  else .error ("Unknown asset class: " ++ assetClass)

/-- Modelled from the spec: `get_accumulated_depreciation` of the
missing module, with the same accumulation loop as the reproduced
`cost_seg/macrs_tables.py`. -/
def get_accumulated_depreciation_rcgv (assetClass : String) (years : ℤ)
    (month : Option ℤ) : Except String ℚ :=
  accumOver (fun y => get_macrs_percentage_rcgv assetClass y month) years

/-- The asset-class keys a calculator's dictionaries can carry: the
three short-life classes, the two GDS building classes, and the two
ADS building classes.  Python dictionaries keyed by these class
strings are embedded as total functions with default `0`. -/
inductive ACKey where
  | k5
  | k7
  | k15
  | k27_5
  | k39
  | k30
  | k40
deriving DecidableEq

/-- The class string of a key, as used by the Python dictionaries. -/
def ACKey.str : ACKey → String
  | .k5 => "5yr"
  | .k7 => "7yr"
  | .k15 => "15yr"
  | .k27_5 => "27.5yr"
  | .k39 => "39yr"
  | .k30 => "30yr"
  | .k40 => "40yr"

/-- Membership test `asset_class in ['5yr', '7yr', '15yr']` used
throughout the calculator. -/
def ACKey.isShortLife : ACKey → Bool
  | .k5 => true
  | .k7 => true
  | .k15 => true
  | _ => false

/-- Embedding of `CapexPool._get_asset_class`
(`cost_seg_calculator.py` lines 127-143): QIP maps to 15yr, explicit
tags map directly, anything else defaults to 5yr. -/
def capexAssetClass (classification : Option String) : ACKey :=
  match classification with
  | none => .k5
  | some c =>
    if c = "QIP" then .k15
    else if c = "5_year" then .k5
    else if c = "7_year" then .k7
    else if c = "15_year" then .k15
    else if c = "27_5_year" then .k27_5
    else if c = "39_year" then .k39
    else .k5

/-- A constructed CapEx pool (`CapexPool.__init__`,
`cost_seg_calculator.py` lines 104-125): the placed-in-service date is
already normalized to a date here. -/
structure CapexPool where
  amount : ℚ
  pisDate : SDate
  classification : Option String
  bonusRate : ℚ
  assetClass : ACKey

/-- Embedding of `CapexPool.__init__`: ADS forces a 0 bonus rate, an
explicit rate wins next, otherwise the rate is resolved from the
pool's own placed-in-service date. -/
def mkCapexPool (amount : ℚ) (pisDate : SDate)
    (classification : Option String) (bonusRate : Option ℚ)
    (useAds : Bool) : CapexPool :=
  { amount := amount
    pisDate := pisDate
    classification := classification
    bonusRate :=
      if useAds then 0
      else
        match bonusRate with
        | some b => b
        | none => get_bonus_rate pisDate
    assetClass := capexAssetClass classification }

/-- The state of a constructed `CostSegregationCalculator`: the fields
its query methods read.  `allocated` is the `allocated_amounts`
dictionary as a total function (missing keys are 0). -/
structure CalcState where
  totalDepreciable : ℚ
  bonusRate : ℚ
  buildingClass : ACKey
  acqMonth : ℤ
  acqYear : ℤ
  cssYear : ℤ
  allocated : ACKey → ℚ
  capexPools : List CapexPool

/-- One allocation dictionary: a fraction (or percentage, see
`pctToFrac`) for each of the five allocation keys. -/
structure Allocations where
  a5 : ℚ
  a7 : ℚ
  a15 : ℚ
  a27_5 : ℚ
  a39 : ℚ
deriving DecidableEq

/-- Sum of the five allocation entries. -/
def allocSum (a : Allocations) : ℚ := a.a5 + a.a7 + a.a15 + a.a27_5 + a.a39

/-- Embedding of `calculate_allocation_percentages`
(`cost_seg_calculator.py` lines 68-98).  The source computes
`age_factor = calculate_age_adjustment(year_built, current_year)`,
the logistic value `0.5 / (1 + exp(-0.01 * age))`; that transcendental
real number is kept abstract as the parameter `ageFactor` (the age
enters the allocation only through it), and the rest of the function
is embedded literally: a 0.22 weight, the building class picked by
property type, and the shift of `adjustment_factor * building_base`
from the building class into the 15-year class. -/
def calculate_allocation_percentages (propertyType : String)
    (ageFactor : ℚ) (base : Allocations) : Allocations :=
  let adjustmentFactor := ageFactor * 0.22
  if propertyType = "multi-family" then
    { base with
      a27_5 := base.a27_5 * (1 - adjustmentFactor)
      a15 := base.a15 + adjustmentFactor * base.a27_5 }
  else
    { base with
      a39 := base.a39 * (1 - adjustmentFactor)
      a15 := base.a15 + adjustmentFactor * base.a39 }

/-- Default base allocations for multi-family property
(`cost_seg_calculator.py` lines 251-257). -/
def baseAllocationsMF : Allocations :=
  { a5 := 0.08926036
    a7 := 0.00000000
    a15 := 0.27500630
    a27_5 := 0.63573334
    a39 := 0.00000000 }

/-- Default base allocations for commercial property
(`cost_seg_calculator.py` lines 261-267). -/
def baseAllocationsCommercial : Allocations :=
  { a5 := 0.07000000
    a7 := 0.01926036
    a15 := 0.27500630
    a27_5 := 0.00000000
    a39 := 0.63573334 }

/-- The `pct / 100 if pct > 1 else pct` heuristic
(`cost_seg_calculator.py` line 281): values above 1 are read as
percentages, others as fractions. -/
def pctToFrac (pct : ℚ) : ℚ := if pct > 1 then pct / 100 else pct

/-- The bonus-rate resolution of the calculator constructor
(`cost_seg_calculator.py` lines 214-220): ADS forces 0, an explicit
override wins next, otherwise the date-resolved rate. -/
def initBonusRate (useAds : Bool) (bonusOverride : Option ℚ)
    (acquisitionDate : SDate) : ℚ :=
  if useAds then 0
  else
    match bonusOverride with
    | some b => b
    | none => get_bonus_rate acquisitionDate

/-- The building-class selection of the constructor
(`cost_seg_calculator.py` lines 222-226): ADS remaps to the longer
30yr/40yr lives. -/
def initBuildingClass (useAds : Bool) (propertyType : String) : ACKey :=
  if useAds then
    (if propertyType = "multi-family" then .k30 else .k40)
  else
    (if propertyType = "multi-family" then .k27_5 else .k39)

/-- The `allocated_amounts` computation of the constructor
(`cost_seg_calculator.py` lines 277-292): each allocation entry is
turned into a dollar amount of the total depreciable basis, and under
ADS the building keys are remapped (27.5yr to 30yr for multi-family,
39yr to 40yr otherwise). -/
def initAllocatedAmounts (totalDepreciable : ℚ) (alloc : Allocations)
    (useAds : Bool) (propertyType : String) : ACKey → ℚ :=
  let mf := propertyType = "multi-family"
  fun k =>
    match k with
    | .k5 => totalDepreciable * pctToFrac alloc.a5
    | .k7 => totalDepreciable * pctToFrac alloc.a7
    | .k15 => totalDepreciable * pctToFrac alloc.a15
    | .k27_5 =>
      if useAds ∧ mf then 0 else totalDepreciable * pctToFrac alloc.a27_5
    | .k39 =>
      if useAds ∧ ¬mf then 0 else totalDepreciable * pctToFrac alloc.a39
    | .k30 =>
      if useAds ∧ mf then totalDepreciable * pctToFrac alloc.a27_5 else 0
    | .k40 =>
      if useAds ∧ ¬mf then totalDepreciable * pctToFrac alloc.a39 else 0

/-- Embedding of `CostSegregationCalculator.__init__`
(`cost_seg_calculator.py` lines 147-295) after date parsing: the
total depreciable basis (legacy `capex` only counts when no CapEx
items are given, lines 208-212), the resolved bonus rate, the
building class, the CapEx pools (each created with the constructor's
`bonus_override` and `use_ads`, lines 229-239), and the allocated
amounts.  The constructor contains no ADS/bonus-override conflict
check: it never fails on such inputs. -/
def mkCalculator (purchasePrice landValue capex pad deferredGain : ℚ)
    (acquisitionDate : SDate) (cssYear : ℤ) (propertyType : String)
    (alloc : Allocations)
    (capexItems : List (ℚ × SDate × Option String))
    (useAds : Bool) (bonusOverride : Option ℚ) : CalcState :=
  let totalDepreciable := purchasePrice - landValue - pad - deferredGain +
    (if capexItems = [] then capex else 0)
  { totalDepreciable := totalDepreciable
    bonusRate := initBonusRate useAds bonusOverride acquisitionDate
    buildingClass := initBuildingClass useAds propertyType
    acqMonth := acquisitionDate.month
    acqYear := acquisitionDate.year
    cssYear := cssYear
    allocated := initAllocatedAmounts totalDepreciable alloc useAds propertyType
    capexPools := capexItems.map
      (fun item => mkCapexPool item.1 item.2.1 item.2.2 bonusOverride useAds) }

/-- Embedding of the pydantic validator `_validate_ads_bonus_conflict`
(`service/schemas.py` lines 93-97): requesting ADS together with an
explicit bonus override is rejected at the service boundary. -/
def validate_ads_bonus_conflict (useAds : Bool)
    (bonusOverride : Option ℚ) : Except String Unit :=
  if useAds ∧ bonusOverride ≠ none then
    .error ("use_ads=true disallows bonus_override. ADS uses straight-line with no bonus depreciation.")
  else .ok ()

/-- Per-class body of `calculate_year_1_depreciation`
(`cost_seg_calculator.py` lines 367-399): zero allocations give 0;
short-life classes get the full amount at 100 percent bonus, else
bonus portion plus year-1 MACRS on the remainder; long-life classes
use the mid-month year-1 percentage for the acquisition month. -/
def year1Class (st : CalcState) (k : ACKey) : Except String ℚ :=
  let amount := st.allocated k
  if amount = 0 then .ok 0
  else if k.isShortLife then
    if st.bonusRate = 100 then .ok amount
    else do
      let pct ← get_macrs_percentage_rcgv k.str 1 none
      pure (amount * (st.bonusRate / 100) +
        amount * (1 - st.bonusRate / 100) * (pct / 100))
  else do
    let pct ← get_macrs_percentage_rcgv k.str 1 (some st.acqMonth)
    pure (amount * (pct / 100))

/-- Per-class body of `calculate_accumulated_depreciation`
(`cost_seg_calculator.py` lines 401-439). -/
def accumClass (st : CalcState) (years : ℤ) (k : ACKey) :
    Except String ℚ :=
  let amount := st.allocated k
  if amount = 0 ∨ years = 0 then .ok 0
  else if k.isShortLife then
    if st.bonusRate = 100 then .ok amount
    else do
      let acc ← get_accumulated_depreciation_rcgv k.str years none
      pure (amount * (st.bonusRate / 100) +
        amount * (1 - st.bonusRate / 100) * (acc / 100))
  else do
    let acc ← get_accumulated_depreciation_rcgv k.str years (some st.acqMonth)
    pure (amount * (acc / 100))

/-- Embedding of `calculate_standard_depreciation`
(`cost_seg_calculator.py` lines 441-459): the accumulated mid-month
percentage for the building class applied to the full depreciable
basis. -/
def standardDep (st : CalcState) (years : ℤ) : Except String ℚ := do
  let acc ← get_accumulated_depreciation_rcgv st.buildingClass.str years
    (some st.acqMonth)
  pure (st.totalDepreciable * (acc / 100))

/-- Per-class body of `calculate_current_year_depreciation`
(`cost_seg_calculator.py` lines 692-731). -/
def currentYearClass (st : CalcState) (year : ℤ) (k : ACKey) :
    Except String ℚ :=
  let amount := st.allocated k
  if amount = 0 then .ok 0
  else if k.isShortLife then
    if st.bonusRate = 100 then .ok (if year = 1 then amount else 0)
    else if year = 1 then do
      let pct ← get_macrs_percentage_rcgv k.str 1 none
      pure (amount * (st.bonusRate / 100) +
        amount * (1 - st.bonusRate / 100) * (pct / 100))
    else do
      let pct ← get_macrs_percentage_rcgv k.str year none
      pure (amount * (1 - st.bonusRate / 100) * (pct / 100))
  else do
    let pct ← get_macrs_percentage_rcgv k.str year (some st.acqMonth)
    pure (amount * (pct / 100))

/-- Embedding of `_calculate_capex_pool_year_depreciation`
(`cost_seg_calculator.py` lines 520-564): the pool's depreciation
year is `target_year - pis_year + 1`; values below 1 mean not yet in
service and give 0.  Note the branch structure for short-life pools:
a year-1 pool with bonus rate 0 falls through every branch to the
final `return 0`. -/
def capexPoolYearDep (pool : CapexPool) (targetYear : ℤ) :
    Except String ℚ :=
  let depreciationYear := targetYear - pool.pisDate.year + 1
  if depreciationYear < 1 then .ok 0
  else
    let amount := pool.amount
    if pool.assetClass.isShortLife then
      if pool.bonusRate = 100 ∧ depreciationYear = 1 then .ok amount
      else if pool.bonusRate > 0 ∧ depreciationYear = 1 then do
        let pct ← get_macrs_percentage_rcgv pool.assetClass.str 1 none
        pure (amount * (pool.bonusRate / 100) +
          amount * (1 - pool.bonusRate / 100) * (pct / 100))
      else if pool.bonusRate < 100 ∧ depreciationYear > 1 then do
        let pct ← get_macrs_percentage_rcgv pool.assetClass.str
          depreciationYear none
        pure (amount * (1 - pool.bonusRate / 100) * (pct / 100))
      else .ok 0
    else do
      let pct ← get_macrs_percentage_rcgv pool.assetClass.str
        depreciationYear (some pool.pisDate.month)
      pure (amount * (pct / 100))

/-- Embedding of `_calculate_capex_pool_accumulated`
(`cost_seg_calculator.py` lines 566-600). -/
def capexPoolAccumulated (pool : CapexPool) (targetYear : ℤ) :
    Except String ℚ :=
  let yearsCompleted := targetYear - pool.pisDate.year + 1
  if yearsCompleted < 1 then .ok 0
  else
    let amount := pool.amount
    if pool.assetClass.isShortLife then
      if pool.bonusRate = 100 then .ok amount
      else do
        let acc ← get_accumulated_depreciation_rcgv pool.assetClass.str
          yearsCompleted none
        pure (amount * (pool.bonusRate / 100) +
          amount * (1 - pool.bonusRate / 100) * (acc / 100))
    else do
      let acc ← get_accumulated_depreciation_rcgv pool.assetClass.str
        yearsCompleted (some pool.pisDate.month)
      pure (amount * (acc / 100))

/-- Embedding of `_aggregate_capex_by_class`
(`cost_seg_calculator.py` lines 602-620): start from a dictionary of
zeros and add each pool's result to its asset class, propagating any
exception. -/
def aggregateCapex (pools : List CapexPool)
    (f : CapexPool → Except String ℚ) : Except String (ACKey → ℚ) :=
  pools.foldlM
    (fun (acc : ACKey → ℚ) (pool : CapexPool) => do
      let d ← f pool
      pure (fun k => if k = pool.assetClass then acc k + d else acc k))
    (fun _ => 0)

/-- Builds a per-class result dictionary from a per-class computation,
propagating the first exception, as the calculator's loops over
`allocated_amounts.items()` do. -/
def mkDict (f : ACKey → Except String ℚ) : Except String (ACKey → ℚ) := do
  let v5 ← f .k5
  let v7 ← f .k7
  let v15 ← f .k15
  let v27 ← f .k27_5
  let v39 ← f .k39
  let v30 ← f .k30
  let v40 ← f .k40
  pure (fun k =>
    match k with
    | .k5 => v5
    | .k7 => v7
    | .k15 => v15
    | .k27_5 => v27
    | .k39 => v39
    | .k30 => v30
    | .k40 => v40)

/-- Sum of a per-class dictionary's values, `sum(d.values())`. -/
def dictSum (f : ACKey → ℚ) : ℚ :=
  f .k5 + f .k7 + f .k15 + f .k27_5 + f .k39 + f .k30 + f .k40

/-- The record returned by `calculate_481a_adjustment`. -/
structure Adj481 where
  yearsElapsed : ℤ
  shouldHaveTaken : ℚ
  didTake : ℚ
  catchUp : ℚ
  currentYearDep : ACKey → ℚ
  currentYearTotal : ℚ
  totalBenefit : ℚ

/-- Embedding of `calculate_481a_adjustment`
(`cost_seg_calculator.py` lines 622-690): `years_elapsed` is the CSS
year minus the acquisition year; the same-year branch returns zero
catch-up and the year-1-plus-CapEx current year; otherwise the
catch-up is the accumulated cost-seg depreciation (with CapEx
accumulated through the prior year) minus the standard depreciation,
and the benefit adds the current-year total. -/
def calc481a (st : CalcState) : Except String Adj481 :=
  let yearsElapsed := st.cssYear - st.acqYear
  let taxYear := st.cssYear
  if yearsElapsed = 0 then do
    let y1 ← mkDict (year1Class st)
    let capexCurrent ← aggregateCapex st.capexPools
      (fun pool => capexPoolYearDep pool taxYear)
    let cur := fun k => y1 k + capexCurrent k
    let curTotal := dictSum cur
    pure
      { yearsElapsed := 0
        shouldHaveTaken := 0
        didTake := 0
        catchUp := 0
        currentYearDep := cur
        currentYearTotal := curTotal
        totalBenefit := curTotal }
  else do
    let shouldDetail ← mkDict (accumClass st yearsElapsed)
    let capexAccum ← aggregateCapex st.capexPools
      (fun pool => capexPoolAccumulated pool (taxYear - 1))
    let shouldD := fun k => shouldDetail k + capexAccum k
    let shouldTotal := dictSum shouldD
    let didTake ← standardDep st yearsElapsed
    let curDetail ← mkDict (currentYearClass st (yearsElapsed + 1))
    let capexCurrent ← aggregateCapex st.capexPools
      (fun pool => capexPoolYearDep pool taxYear)
    let cur := fun k => curDetail k + capexCurrent k
    let curTotal := dictSum cur
    let catchUp := shouldTotal - didTake
    pure
      { yearsElapsed := yearsElapsed
        shouldHaveTaken := shouldTotal
        didTake := didTake
        catchUp := catchUp
        currentYearDep := cur
        currentYearTotal := curTotal
        totalBenefit := catchUp + curTotal }

/-- A concrete calculator state for the C7 witness: 100 percent bonus,
50 dollars allocated to the 5-year class. -/
def stC7 : CalcState :=
  { totalDepreciable := 1000
    bonusRate := 100
    buildingClass := .k27_5
    acqMonth := 6
    acqYear := 2020
    cssYear := 2020
    allocated := fun k => match k with | .k5 => 50 | _ => 0
    capexPools := [] }

/-- The CapEx pool of the C4 failing input: 1000 dollars of 5-year
property placed in service 2016-05-01, before the first bonus range,
so its resolved bonus rate is 0. -/
def poolC4 : CapexPool :=
  mkCapexPool 1000 ⟨2016, 5, 1⟩ (some ("5_year")) none false

/-- Concrete calculator state for the C5 witness: 1000 of basis, 100
allocated to the 5-year class, 60 percent bonus, acquired June 2019,
filed 2021 (so 2 years elapsed), no CapEx pools. -/
def stC5 : CalcState :=
  { totalDepreciable := 1000
    bonusRate := 60
    buildingClass := .k27_5
    acqMonth := 6
    acqYear := 2019
    cssYear := 2021
    allocated := fun k => match k with | .k5 => 100 | _ => 0
    capexPools := [] }

/-- Accumulated-through-2-years values of `stC5` by class. -/
def AC5 : ACKey → ℚ := fun k => match k with | .k5 => 80.8 | _ => 0

/-- Year-3 current-year values of `stC5` by class. -/
def CY5 : ACKey → ℚ := fun k => match k with | .k5 => 7.68 | _ => 0

/-- Zero per-class dictionary (no CapEx pools). -/
def ZD : ACKey → ℚ := fun _ => 0

/-- Concrete ADS calculator for the C2 witness: multi-family, ADS
elected, acquired June 2024. -/
def stC2 : CalcState :=
  mkCalculator 2000000 200000 0 0 0 ⟨2024, 6, 15⟩ 2024 ("multi-family")
    baseAllocationsMF [] true none

theorem ok_bind (a : α) (f : α → Except ε β) :
    (Except.ok a : Except ε α) >>= f = f a := rfl

theorem err_bind (e : ε) (f : α → Except ε β) :
    (Except.error e : Except ε α) >>= f = Except.error e := rfl

theorem foldlM_ok (v : ℤ → ℚ) (g : ℤ → Except String ℚ)
    (h : ∀ y, g y = .ok (v y)) (l : List ℕ) (init : ℚ) :
    l.foldlM (fun (total : ℚ) (y : ℕ) => do
      let p ← g ((y : ℤ) + 1)
      pure (total + p)) init =
      .ok (l.foldl (fun (total : ℚ) (y : ℕ) => total + v ((y : ℤ) + 1)) init) := by
  induction l generalizing init with
  | nil => rfl
  | cons a as ih =>
    rw [List.foldlM_cons, List.foldl_cons, h ((a : ℤ) + 1), ok_bind, pure_bind]
    exact ih _

/-- When every per-year lookup succeeds, the accumulation loop returns
the partial sum of the looked-up percentages. -/
theorem accumOver_ok (v : ℤ → ℚ) (g : ℤ → Except String ℚ)
    (h : ∀ y, g y = .ok (v y)) (years : ℤ) :
    accumOver g years = .ok (sumTo v years.toNat) := by
  unfold accumOver
  rw [foldlM_ok v g h]
  congr 1
  generalize years.toNat = n
  induction n with
  | zero => rfl
  | succ k ih => rw [List.range_succ, List.foldl_append, ih]; rfl

theorem accumOver_zero (g : ℤ → Except String ℚ) (years : ℤ)
    (h : years ≤ 0) : accumOver g years = .ok 0 := by
  unfold accumOver
  rw [Int.toNat_of_nonpos h]
  rfl

theorem get_macrs_5yr (y : ℤ) (mo : Option ℤ) :
    get_macrs_percentage ("5yr") y mo = .ok (MACRS_5YR_HY y) := rfl

theorem get_macrs_7yr (y : ℤ) (mo : Option ℤ) :
    get_macrs_percentage ("7yr") y mo = .ok (MACRS_7YR_HY y) := rfl

theorem get_macrs_15yr (y : ℤ) (mo : Option ℤ) :
    get_macrs_percentage ("15yr") y mo = .ok (MACRS_15YR_HY y) := rfl

theorem get_macrs_27_5yr (y m : ℤ) :
    get_macrs_percentage ("27.5yr") y (some m) = .ok (MACRS_27_5YR_MM y m) := rfl

theorem get_macrs_39yr (y m : ℤ) :
    get_macrs_percentage ("39yr") y (some m) = .ok (MACRS_39YR_MM y m) := rfl

theorem get_macrs_27_5yr_none (y : ℤ) :
    get_macrs_percentage ("27.5yr") y none =
      .error ("Month required for 27.5yr property") := rfl

theorem get_macrs_39yr_none (y : ℤ) :
    get_macrs_percentage ("39yr") y none =
      .error ("Month required for 39yr property") := rfl

theorem sum_5yr : sumTo MACRS_5YR_HY 6 = 100 := by
  norm_num [sumTo, MACRS_5YR_HY]

theorem sum_7yr : sumTo MACRS_7YR_HY 8 = 100 := by
  norm_num [sumTo, MACRS_7YR_HY]

theorem sum_15yr : sumTo MACRS_15YR_HY 16 = 100 := by
  norm_num [sumTo, MACRS_15YR_HY]

theorem sum_27_5yr_m1 : sumTo (fun y => MACRS_27_5YR_MM y 1) 29 = 101.658 := by
  norm_num [sumTo, MACRS_27_5YR_MM, MACRS_27_5YR_MM_Y1, MACRS_27_5YR_MM_Y28,
    MACRS_27_5YR_MM_Y29]

theorem sum_27_5yr_m2 : sumTo (fun y => MACRS_27_5YR_MM y 2) 29 = 101.657 := by
  norm_num [sumTo, MACRS_27_5YR_MM, MACRS_27_5YR_MM_Y1, MACRS_27_5YR_MM_Y28,
    MACRS_27_5YR_MM_Y29]

theorem sum_39yr_m1 : sumTo (fun y => MACRS_39YR_MM y 1) 40 = 99.893 := by
  norm_num [sumTo, MACRS_39YR_MM, MACRS_39YR_MM_Y1, MACRS_39YR_MM_Y40]

/-- Claim C1: the MACRS table percentages are claimed to sum to exactly
100 over the full recovery life for every asset class and every month.
The half-year tables (5yr over years 1-6, 7yr over 1-8, 15yr over 1-16)
do sum to 100, but the mid-month tables do not: the 27.5yr table sums
to 101.658 for month 1 and 101.657 for month 2, and the 39yr table sums
to 99.893 for month 1 — all computed in exact rational arithmetic, so
the claimed invariant fails on the code's tables. -/
theorem C1_table_sums :
    get_accumulated_depreciation ("5yr") 6 none = .ok 100 ∧
    get_accumulated_depreciation ("7yr") 8 none = .ok 100 ∧
    get_accumulated_depreciation ("15yr") 16 none = .ok 100 ∧
    get_accumulated_depreciation ("27.5yr") 29 (some 1) = .ok 101.658 ∧
    get_accumulated_depreciation ("27.5yr") 29 (some 2) = .ok 101.657 ∧
    get_accumulated_depreciation ("39yr") 40 (some 1) = .ok 99.893 ∧
    (101.658 : ℚ) ≠ 100 ∧ (101.657 : ℚ) ≠ 100 ∧ (99.893 : ℚ) ≠ 100 := by
  refine ⟨?_, ?_, ?_, ?_, ?_, ?_, by norm_num, by norm_num, by norm_num⟩
  · rw [get_accumulated_depreciation,
      accumOver_ok MACRS_5YR_HY _ (fun y => get_macrs_5yr y none) 6]
    exact congrArg Except.ok sum_5yr
  · rw [get_accumulated_depreciation,
      accumOver_ok MACRS_7YR_HY _ (fun y => get_macrs_7yr y none) 8]
    exact congrArg Except.ok sum_7yr
  · rw [get_accumulated_depreciation,
      accumOver_ok MACRS_15YR_HY _ (fun y => get_macrs_15yr y none) 16]
    exact congrArg Except.ok sum_15yr
  · rw [get_accumulated_depreciation,
      accumOver_ok (fun y => MACRS_27_5YR_MM y 1) _
        (fun y => get_macrs_27_5yr y 1) 29]
    exact congrArg Except.ok sum_27_5yr_m1
  · rw [get_accumulated_depreciation,
      accumOver_ok (fun y => MACRS_27_5YR_MM y 2) _
        (fun y => get_macrs_27_5yr y 2) 29]
    exact congrArg Except.ok sum_27_5yr_m2
  · rw [get_accumulated_depreciation,
      accumOver_ok (fun y => MACRS_39YR_MM y 1) _
        (fun y => get_macrs_39yr y 1) 40]
    exact congrArg Except.ok sum_39yr_m1

/-- Claim C6: for every calendar date (month 1-12, day 1-31) the
embedded `get_bonus_rate` agrees with the spec's piecewise schedule:
100 on or after 2025-01-20, 40 on 2025-01-01..2025-01-19, 60 in 2024,
80 in 2023, 100 on 2017-09-27..2022-12-31, and 0 before.  The
embedding is a total function, so the lookup never fails. -/
theorem C6_bonus_rate (y m d : ℤ) (hm1 : 1 ≤ m) (hm2 : m ≤ 12)
    (hd1 : 1 ≤ d) (hd2 : d ≤ 31) :
    get_bonus_rate ⟨y, m, d⟩ = bonusRateSpec ⟨y, m, d⟩ := by
  unfold get_bonus_rate bonusRateSpec BONUS_SCHEDULE
  simp only [bonusRateAux, SDate.le]
  split_ifs <;> first | rfl | omega

/-- Witness for C6 at the concrete date 2024-06-15 (a 60 percent
date). -/
theorem C6_bonus_rate_witness :
    get_bonus_rate ⟨2024, 6, 15⟩ = bonusRateSpec ⟨2024, 6, 15⟩ ∧
    get_bonus_rate ⟨2024, 6, 15⟩ = 60 := by
  constructor
  · exact C6_bonus_rate 2024 6 15 (by norm_num) (by norm_num) (by norm_num)
      (by norm_num)
  · rfl

theorem iteNonnegQ {c : Prop} [Decidable c] {a b : ℚ} (ha : 0 ≤ a)
    (hb : 0 ≤ b) : 0 ≤ if c then a else b := by
  split <;> assumption

theorem MACRS_5YR_HY_nonneg (y : ℤ) : 0 ≤ MACRS_5YR_HY y :=
  (iteNonnegQ (by norm_num) (iteNonnegQ (by norm_num) (iteNonnegQ (by norm_num) (iteNonnegQ (by norm_num) (iteNonnegQ (by norm_num) (iteNonnegQ (by norm_num) (by norm_num)))))))

theorem MACRS_7YR_HY_nonneg (y : ℤ) : 0 ≤ MACRS_7YR_HY y :=
  (iteNonnegQ (by norm_num) (iteNonnegQ (by norm_num) (iteNonnegQ (by norm_num) (iteNonnegQ (by norm_num) (iteNonnegQ (by norm_num) (iteNonnegQ (by norm_num) (iteNonnegQ (by norm_num) (iteNonnegQ (by norm_num) (by norm_num)))))))))

theorem MACRS_15YR_HY_nonneg (y : ℤ) : 0 ≤ MACRS_15YR_HY y :=
  (iteNonnegQ (by norm_num) (iteNonnegQ (by norm_num) (iteNonnegQ (by norm_num) (iteNonnegQ (by norm_num) (iteNonnegQ (by norm_num) (iteNonnegQ (by norm_num) (iteNonnegQ (by norm_num) (iteNonnegQ (by norm_num) (iteNonnegQ (by norm_num) (iteNonnegQ (by norm_num) (iteNonnegQ (by norm_num) (iteNonnegQ (by norm_num) (iteNonnegQ (by norm_num) (iteNonnegQ (by norm_num) (iteNonnegQ (by norm_num) (iteNonnegQ (by norm_num) (by norm_num)))))))))))))))))

theorem MACRS_27_5YR_MM_Y1_nonneg (m : ℤ) : 0 ≤ MACRS_27_5YR_MM_Y1 m :=
  (iteNonnegQ (by norm_num) (iteNonnegQ (by norm_num) (iteNonnegQ (by norm_num) (iteNonnegQ (by norm_num) (iteNonnegQ (by norm_num) (iteNonnegQ (by norm_num) (iteNonnegQ (by norm_num) (iteNonnegQ (by norm_num) (iteNonnegQ (by norm_num) (iteNonnegQ (by norm_num) (iteNonnegQ (by norm_num) (iteNonnegQ (by norm_num) (by norm_num)))))))))))))

theorem MACRS_27_5YR_MM_Y28_nonneg (m : ℤ) : 0 ≤ MACRS_27_5YR_MM_Y28 m :=
  (iteNonnegQ (by norm_num) (iteNonnegQ (by norm_num) (by norm_num)))

theorem MACRS_27_5YR_MM_Y29_nonneg (m : ℤ) : 0 ≤ MACRS_27_5YR_MM_Y29 m :=
  (iteNonnegQ (by norm_num) (iteNonnegQ (by norm_num) (iteNonnegQ (by norm_num) (iteNonnegQ (by norm_num) (iteNonnegQ (by norm_num) (iteNonnegQ (by norm_num) (iteNonnegQ (by norm_num) (iteNonnegQ (by norm_num) (iteNonnegQ (by norm_num) (iteNonnegQ (by norm_num) (iteNonnegQ (by norm_num) (iteNonnegQ (by norm_num) (by norm_num)))))))))))))

theorem MACRS_27_5YR_MM_nonneg (y m : ℤ) : 0 ≤ MACRS_27_5YR_MM y m :=
  iteNonnegQ (MACRS_27_5YR_MM_Y1_nonneg m)
    (iteNonnegQ (iteNonnegQ (by norm_num) (by norm_num))
      (iteNonnegQ (MACRS_27_5YR_MM_Y28_nonneg m)
        (iteNonnegQ (MACRS_27_5YR_MM_Y29_nonneg m) (by norm_num))))

theorem MACRS_39YR_MM_Y1_nonneg (m : ℤ) : 0 ≤ MACRS_39YR_MM_Y1 m :=
  (iteNonnegQ (by norm_num) (iteNonnegQ (by norm_num) (iteNonnegQ (by norm_num) (iteNonnegQ (by norm_num) (iteNonnegQ (by norm_num) (iteNonnegQ (by norm_num) (iteNonnegQ (by norm_num) (iteNonnegQ (by norm_num) (iteNonnegQ (by norm_num) (iteNonnegQ (by norm_num) (iteNonnegQ (by norm_num) (iteNonnegQ (by norm_num) (by norm_num)))))))))))))

theorem MACRS_39YR_MM_Y40_nonneg (m : ℤ) : 0 ≤ MACRS_39YR_MM_Y40 m :=
  (iteNonnegQ (by norm_num) (iteNonnegQ (by norm_num) (iteNonnegQ (by norm_num) (iteNonnegQ (by norm_num) (iteNonnegQ (by norm_num) (iteNonnegQ (by norm_num) (iteNonnegQ (by norm_num) (iteNonnegQ (by norm_num) (iteNonnegQ (by norm_num) (iteNonnegQ (by norm_num) (iteNonnegQ (by norm_num) (iteNonnegQ (by norm_num) (by norm_num)))))))))))))

theorem MACRS_39YR_MM_nonneg (y m : ℤ) : 0 ≤ MACRS_39YR_MM y m :=
  iteNonnegQ (MACRS_39YR_MM_Y1_nonneg m)
    (iteNonnegQ (iteNonnegQ (by norm_num) (by norm_num))
      (iteNonnegQ (MACRS_39YR_MM_Y40_nonneg m) (by norm_num)))

/-- Every percentage the table lookup can return is non-negative. -/
theorem get_macrs_nonneg (c : String) (y : ℤ) (mo : Option ℤ) (q : ℚ)
    (h : get_macrs_percentage c y mo = .ok q) : 0 ≤ q := by
  unfold get_macrs_percentage at h
  split_ifs at h
  · cases h; exact MACRS_5YR_HY_nonneg y
  · cases h; exact MACRS_7YR_HY_nonneg y
  · cases h; exact MACRS_15YR_HY_nonneg y
  · cases mo with
    | none => cases h
    | some m => cases h; exact MACRS_27_5YR_MM_nonneg y m
  · cases mo with
    | none => cases h
    | some m => cases h; exact MACRS_39YR_MM_nonneg y m

/-- One more year of accumulation binds the previous accumulation with
one more table lookup (the loop peels its last iteration). -/
theorem accumOver_succ (g : ℤ → Except String ℚ) (n : ℤ) (hn : 0 ≤ n) :
    accumOver g (n + 1) = (do
      let t ← accumOver g n
      let p ← g (n + 1)
      pure (t + p)) := by
  unfold accumOver
  rw [show (n + 1).toNat = n.toNat + 1 by omega, List.range_succ,
    List.foldlM_append]
  congr 1
  funext t
  rw [List.foldlM_cons]
  simp only [List.foldlM_nil]
  rw [Int.toNat_of_nonneg hn]
  cases g (n + 1) with
  | error e => rfl
  | ok p => rfl

theorem sumTo_eq_sum_Icc (v : ℤ → ℚ) (N : ℕ) :
    sumTo v N = ∑ y in Finset.Icc 1 N, v (y : ℤ) := by
  induction N with
  | zero => simp [sumTo]
  | succ k ih =>
    rw [Finset.sum_Icc_succ_top (by omega), ← ih, sumTo]
    push_cast
    ring

/-- Claim C10: accumulated depreciation is monotone non-decreasing in
the number of years, for every asset class and month argument for which
the lookups succeed (every per-year table percentage is non-negative),
and it is 0 at 0 years. -/
theorem C10_accumulated_monotone :
    (∀ (c : String) (mo : Option ℤ) (n : ℤ), 0 ≤ n → ∀ a b : ℚ,
      get_accumulated_depreciation c n mo = .ok a →
      get_accumulated_depreciation c (n + 1) mo = .ok b → a ≤ b) ∧
    (∀ (c : String) (mo : Option ℤ),
      get_accumulated_depreciation c 0 mo = .ok 0) := by
  constructor
  · intro c mo n hn a b ha hb
    unfold get_accumulated_depreciation at ha hb
    rw [accumOver_succ _ n hn, ha, ok_bind] at hb
    cases hg : get_macrs_percentage c (n + 1) mo with
    | error e => rw [hg, err_bind] at hb; cases hb
    | ok p =>
      rw [hg, ok_bind] at hb
      cases hb
      have hp : 0 ≤ p := get_macrs_nonneg c (n + 1) mo p hg
      linarith
  · intro c mo
    exact accumOver_zero _ 0 le_rfl

/-- Witness for C10 at the 5yr class: accumulation through 2 years is
52, through 3 years is 71.2, and the theorem gives 52 ≤ 71.2. -/
theorem C10_accumulated_monotone_witness :
    get_accumulated_depreciation ("5yr") 2 none = .ok 52 ∧
    get_accumulated_depreciation ("5yr") 3 none = .ok 71.2 ∧
    (52 : ℚ) ≤ 71.2 := by
  have h2 : get_accumulated_depreciation ("5yr") 2 none = .ok 52 := by
    rw [get_accumulated_depreciation,
      accumOver_ok MACRS_5YR_HY _ (fun y => get_macrs_5yr y none) 2]
    exact congrArg Except.ok (by norm_num [sumTo, MACRS_5YR_HY])
  have h3 : get_accumulated_depreciation ("5yr") 3 none = .ok 71.2 := by
    rw [get_accumulated_depreciation,
      accumOver_ok MACRS_5YR_HY _ (fun y => get_macrs_5yr y none) 3]
    exact congrArg Except.ok (by norm_num [sumTo, MACRS_5YR_HY])
  refine ⟨h2, h3, ?_⟩
  exact C10_accumulated_monotone.1 ("5yr") none 2 (by norm_num) 52 71.2 h2
    (by exact_mod_cast h3)

/-- Claim C8: half-year classes ignore the month argument entirely;
out-of-range years (year 0, negative years, years past recovery)
return 0 for the half-year classes; and for every known asset class,
with a month supplied where the convention requires one, the
accumulated percentage through N years is the sum of the per-year
percentages for years 1 through N. -/
theorem C8_lookup_contract :
    (∀ (y : ℤ) (mo mo' : Option ℤ),
      get_macrs_percentage ("5yr") y mo = get_macrs_percentage ("5yr") y mo' ∧
      get_macrs_percentage ("7yr") y mo = get_macrs_percentage ("7yr") y mo' ∧
      get_macrs_percentage ("15yr") y mo = get_macrs_percentage ("15yr") y mo') ∧
    (∀ (y : ℤ) (mo : Option ℤ),
      (y < 1 ∨ 6 < y → get_macrs_percentage ("5yr") y mo = .ok 0) ∧
      (y < 1 ∨ 8 < y → get_macrs_percentage ("7yr") y mo = .ok 0) ∧
      (y < 1 ∨ 16 < y → get_macrs_percentage ("15yr") y mo = .ok 0)) ∧
    (∀ (c : String), c ∈ ["5yr", "7yr", "15yr", "27.5yr", "39yr"] →
      ∀ (mo : Option ℤ), ((c = "27.5yr" ∨ c = "39yr") → mo ≠ none) →
      ∀ (N : ℕ), ∃ vals : ℤ → ℚ,
        (∀ y : ℤ, get_macrs_percentage c y mo = .ok (vals y)) ∧
        get_accumulated_depreciation c (N : ℤ) mo =
          .ok (∑ y in Finset.Icc 1 N, vals (y : ℤ))) := by
  refine ⟨?_, ?_, ?_⟩
  · intro y mo mo'
    exact ⟨rfl, rfl, rfl⟩
  · intro y mo
    refine ⟨fun hy => ?_, fun hy => ?_, fun hy => ?_⟩
    · rw [get_macrs_5yr]
      congr 1
      unfold MACRS_5YR_HY
      rw [if_neg (show ¬(y = 1) by omega),
        if_neg (show ¬(y = 2) by omega),
        if_neg (show ¬(y = 3) by omega),
        if_neg (show ¬(y = 4) by omega),
        if_neg (show ¬(y = 5) by omega),
        if_neg (show ¬(y = 6) by omega)]
    · rw [get_macrs_7yr]
      congr 1
      unfold MACRS_7YR_HY
      rw [if_neg (show ¬(y = 1) by omega),
        if_neg (show ¬(y = 2) by omega),
        if_neg (show ¬(y = 3) by omega),
        if_neg (show ¬(y = 4) by omega),
        if_neg (show ¬(y = 5) by omega),
        if_neg (show ¬(y = 6) by omega),
        if_neg (show ¬(y = 7) by omega),
        if_neg (show ¬(y = 8) by omega)]
    · rw [get_macrs_15yr]
      congr 1
      unfold MACRS_15YR_HY
      rw [if_neg (show ¬(y = 1) by omega),
        if_neg (show ¬(y = 2) by omega),
        if_neg (show ¬(y = 3) by omega),
        if_neg (show ¬(y = 4) by omega),
        if_neg (show ¬(y = 5) by omega),
        if_neg (show ¬(y = 6) by omega),
        if_neg (show ¬(y = 7) by omega),
        if_neg (show ¬(y = 8) by omega),
        if_neg (show ¬(y = 9) by omega),
        if_neg (show ¬(y = 10) by omega),
        if_neg (show ¬(y = 11) by omega),
        if_neg (show ¬(y = 12) by omega),
        if_neg (show ¬(y = 13) by omega),
        if_neg (show ¬(y = 14) by omega),
        if_neg (show ¬(y = 15) by omega),
        if_neg (show ¬(y = 16) by omega)]
  · intro c hc mo hmo N
    have htn : ((N : ℤ)).toNat = N := Int.toNat_natCast N
    simp only [List.mem_cons, List.mem_singleton, List.not_mem_nil,
      or_false] at hc
    rcases hc with h | h | h | h | h <;> subst h
    · refine ⟨MACRS_5YR_HY, fun y => get_macrs_5yr y mo, ?_⟩
      rw [get_accumulated_depreciation,
        accumOver_ok MACRS_5YR_HY _ (fun y => get_macrs_5yr y mo) (N : ℤ),
        htn, sumTo_eq_sum_Icc]
    · refine ⟨MACRS_7YR_HY, fun y => get_macrs_7yr y mo, ?_⟩
      rw [get_accumulated_depreciation,
        accumOver_ok MACRS_7YR_HY _ (fun y => get_macrs_7yr y mo) (N : ℤ),
        htn, sumTo_eq_sum_Icc]
    · refine ⟨MACRS_15YR_HY, fun y => get_macrs_15yr y mo, ?_⟩
      rw [get_accumulated_depreciation,
        accumOver_ok MACRS_15YR_HY _ (fun y => get_macrs_15yr y mo) (N : ℤ),
        htn, sumTo_eq_sum_Icc]
    · cases mo with
      | none => exact absurd rfl (hmo (Or.inl rfl))
      | some m =>
        refine ⟨fun y => MACRS_27_5YR_MM y m,
          fun y => get_macrs_27_5yr y m, ?_⟩
        rw [get_accumulated_depreciation,
          accumOver_ok (fun y => MACRS_27_5YR_MM y m) _
            (fun y => get_macrs_27_5yr y m) (N : ℤ),
          htn, sumTo_eq_sum_Icc]
    · cases mo with
      | none => exact absurd rfl (hmo (Or.inr rfl))
      | some m =>
        refine ⟨fun y => MACRS_39YR_MM y m,
          fun y => get_macrs_39yr y m, ?_⟩
        rw [get_accumulated_depreciation,
          accumOver_ok (fun y => MACRS_39YR_MM y m) _
            (fun y => get_macrs_39yr y m) (N : ℤ),
          htn, sumTo_eq_sum_Icc]

/-- Witness for C8 at concrete inputs: month-independence of the 5yr
lookup at year 3, out-of-range year 9 for the 7yr class, and the
accumulated-equals-sum property for the 27.5yr class, month 6,
through 2 years. -/
theorem C8_lookup_contract_witness :
    get_macrs_percentage ("5yr") 3 (some 4) =
      get_macrs_percentage ("5yr") 3 none ∧
    get_macrs_percentage ("7yr") 9 none = .ok 0 ∧
    (∃ vals : ℤ → ℚ,
      (∀ y : ℤ, get_macrs_percentage ("27.5yr") y (some 6) = .ok (vals y)) ∧
      get_accumulated_depreciation ("27.5yr") ((2 : ℕ) : ℤ) (some 6) =
        .ok (∑ y in Finset.Icc 1 2, vals (y : ℤ))) := by
  refine ⟨(C8_lookup_contract.1 3 (some 4) none).1,
    (C8_lookup_contract.2.1 9 none).2.1 (by norm_num), ?_⟩
  exact C8_lookup_contract.2.2 ("27.5yr") (by norm_num) (some 6)
    (fun _ => Option.some_ne_none 6) 2

theorem rcgv_eq_src_5yr (y : ℤ) (mo : Option ℤ) :
    get_macrs_percentage_rcgv ("5yr") y mo =
      get_macrs_percentage ("5yr") y mo := rfl

theorem rcgv_eq_src_7yr (y : ℤ) (mo : Option ℤ) :
    get_macrs_percentage_rcgv ("7yr") y mo =
      get_macrs_percentage ("7yr") y mo := rfl

theorem rcgv_eq_src_15yr (y : ℤ) (mo : Option ℤ) :
    get_macrs_percentage_rcgv ("15yr") y mo =
      get_macrs_percentage ("15yr") y mo := rfl

theorem rcgv_eq_src_27_5yr (y : ℤ) (mo : Option ℤ) :
    get_macrs_percentage_rcgv ("27.5yr") y mo =
      get_macrs_percentage ("27.5yr") y mo := rfl

theorem rcgv_eq_src_39yr (y : ℤ) (mo : Option ℤ) :
    get_macrs_percentage_rcgv ("39yr") y mo =
      get_macrs_percentage ("39yr") y mo := rfl

theorem get_macrs_rcgv_30yr (y m : ℤ) :
    get_macrs_percentage_rcgv ("30yr") y (some m) =
      .ok (MACRS_30YR_MM y m) := rfl

theorem get_macrs_rcgv_40yr (y m : ℤ) :
    get_macrs_percentage_rcgv ("40yr") y (some m) =
      .ok (MACRS_40YR_MM y m) := rfl

/-- Claim C9: the age adjustment multiplies the logistic age factor by
0.22 and shifts that fraction of the building class's base allocation
into the 15-year class, leaving the other classes unchanged; hence the
sum of the allocations is preserved, and the built-in default base
allocations sum to exactly 1. -/
theorem C9_allocation_shift (pt : String) (af : ℚ) (base : Allocations) :
    (pt = "multi-family" →
      calculate_allocation_percentages pt af base =
        { a5 := base.a5
          a7 := base.a7
          a15 := base.a15 + (af * 0.22) * base.a27_5
          a27_5 := base.a27_5 * (1 - af * 0.22)
          a39 := base.a39 }) ∧
    (pt ≠ "multi-family" →
      calculate_allocation_percentages pt af base =
        { a5 := base.a5
          a7 := base.a7
          a15 := base.a15 + (af * 0.22) * base.a39
          a27_5 := base.a27_5
          a39 := base.a39 * (1 - af * 0.22) }) ∧
    allocSum (calculate_allocation_percentages pt af base) = allocSum base ∧
    allocSum baseAllocationsMF = 1 ∧
    allocSum baseAllocationsCommercial = 1 := by
  refine ⟨?_, ?_, ?_, ?_, ?_⟩
  · intro hpt
    unfold calculate_allocation_percentages
    rw [if_pos hpt]
  · intro hpt
    unfold calculate_allocation_percentages
    rw [if_neg hpt]
  · unfold calculate_allocation_percentages allocSum
    by_cases hpt : pt = "multi-family"
    · rw [if_pos hpt]
      ring
    · rw [if_neg hpt]
      ring
  · norm_num [allocSum, baseAllocationsMF]
  · norm_num [allocSum, baseAllocationsCommercial]

/-- Witness for C9 at a multi-family input with age factor 1/2. -/
theorem C9_allocation_shift_witness :
    calculate_allocation_percentages ("multi-family") (1 / 2)
        baseAllocationsMF =
      { a5 := baseAllocationsMF.a5
        a7 := baseAllocationsMF.a7
        a15 := baseAllocationsMF.a15 + (1 / 2 * 0.22) * baseAllocationsMF.a27_5
        a27_5 := baseAllocationsMF.a27_5 * (1 - 1 / 2 * 0.22)
        a39 := baseAllocationsMF.a39 } ∧
    allocSum (calculate_allocation_percentages ("multi-family") (1 / 2)
      baseAllocationsMF) = allocSum baseAllocationsMF :=
  ⟨(C9_allocation_shift ("multi-family") (1 / 2) baseAllocationsMF).1 rfl,
   (C9_allocation_shift ("multi-family") (1 / 2) baseAllocationsMF).2.2.1⟩

/-- Claim C7: with a 100 percent bonus rate, accumulated depreciation
through year 1 for a short-life class is exactly its allocated amount,
and the current-year depreciation of that class is 0 in every year
after the first. -/
theorem C7_full_bonus (st : CalcState) (hb : st.bonusRate = 100)
    (k : ACKey) (hk : k.isShortLife = true) :
    accumClass st 1 k = .ok (st.allocated k) ∧
    ∀ year : ℤ, 2 ≤ year → currentYearClass st year k = .ok 0 := by
  constructor
  · unfold accumClass
    by_cases ha : st.allocated k = 0
    · rw [if_pos (Or.inl ha), ha]
    · rw [if_neg (by push_neg; exact ⟨ha, by norm_num⟩)]
      simp only [hk, if_true, hb, if_pos rfl]
  · intro year hy
    unfold currentYearClass
    by_cases ha : st.allocated k = 0
    · rw [if_pos ha]
    · rw [if_neg ha]
      simp only [hk, if_true, hb, if_pos rfl]
      rw [if_neg (show ¬(year = 1) by omega)]

/-- Witness for C7: the 5-year class of `stC7` accumulates its full 50
by year 1 and has zero year-3 depreciation. -/
theorem C7_full_bonus_witness :
    accumClass stC7 1 .k5 = .ok 50 ∧
    currentYearClass stC7 3 .k5 = .ok 0 :=
  ⟨(C7_full_bonus stC7 rfl .k5 rfl).1,
   (C7_full_bonus stC7 rfl .k5 rfl).2 3 (by norm_num)⟩

/-- Counterexample to claim C3: constructing the calculator with
`use_ads=True` and a non-None `bonus_override=50` does not fail — it
produces a calculator instance, with the override silently ignored
(bonus rate 0, ADS building class, basis computed as usual). -/
theorem C3_counterexample :
    (mkCalculator 1000000 100000 0 0 0 ⟨2024, 6, 15⟩ 2024 ("commercial")
        baseAllocationsCommercial [] true (some 50)).bonusRate = 0 ∧
    (mkCalculator 1000000 100000 0 0 0 ⟨2024, 6, 15⟩ 2024 ("commercial")
        baseAllocationsCommercial [] true (some 50)).buildingClass = .k40 ∧
    (mkCalculator 1000000 100000 0 0 0 ⟨2024, 6, 15⟩ 2024 ("commercial")
        baseAllocationsCommercial [] true (some 50)).totalDepreciable =
      900000 := by
  refine ⟨rfl, ?_, ?_⟩
  · show initBuildingClass true ("commercial") = ACKey.k40
    unfold initBuildingClass
    rw [if_pos rfl, if_neg (by decide)]
  · norm_num [mkCalculator]

/-- Claim C3 as amended: the ADS/bonus-override conflict is rejected
by the service schema validator (which raises for every override value
when ADS is requested), while the calculator constructor itself
accepts both options and resolves the bonus rate to 0 — ADS taking
precedence — for the primary property and for every CapEx pool. -/
theorem C3_amended (bo : ℚ) (d : SDate) :
    (∃ msg, validate_ads_bonus_conflict true (some bo) = .error msg) ∧
    initBonusRate true (some bo) d = 0 ∧
    (∀ (amount : ℚ) (pis : SDate) (cls : Option String),
      (mkCapexPool amount pis cls (some bo) true).bonusRate = 0) := by
  refine ⟨?_, rfl, fun amount pis cls => rfl⟩
  unfold validate_ads_bonus_conflict
  rw [if_pos ⟨rfl, Option.some_ne_none bo⟩]
  exact ⟨_, rfl⟩

theorem pure_eq_ok (a : α) : (pure a : Except ε α) = .ok a := rfl

theorem get_macrs_rcgv_5yr (y : ℤ) (mo : Option ℤ) :
    get_macrs_percentage_rcgv ("5yr") y mo = .ok (MACRS_5YR_HY y) := rfl

theorem get_macrs_rcgv_7yr (y : ℤ) (mo : Option ℤ) :
    get_macrs_percentage_rcgv ("7yr") y mo = .ok (MACRS_7YR_HY y) := rfl

theorem get_macrs_rcgv_15yr (y : ℤ) (mo : Option ℤ) :
    get_macrs_percentage_rcgv ("15yr") y mo = .ok (MACRS_15YR_HY y) := rfl

theorem get_macrs_rcgv_27_5yr (y m : ℤ) :
    get_macrs_percentage_rcgv ("27.5yr") y (some m) =
      .ok (MACRS_27_5YR_MM y m) := rfl

theorem accum_rcgv_5yr (years : ℤ) (mo : Option ℤ) :
    get_accumulated_depreciation_rcgv ("5yr") years mo =
      .ok (sumTo MACRS_5YR_HY years.toNat) := by
  rw [get_accumulated_depreciation_rcgv,
    accumOver_ok MACRS_5YR_HY _ (fun y => get_macrs_rcgv_5yr y mo) years]

theorem accum_rcgv_7yr (years : ℤ) (mo : Option ℤ) :
    get_accumulated_depreciation_rcgv ("7yr") years mo =
      .ok (sumTo MACRS_7YR_HY years.toNat) := by
  rw [get_accumulated_depreciation_rcgv,
    accumOver_ok MACRS_7YR_HY _ (fun y => get_macrs_rcgv_7yr y mo) years]

theorem accum_rcgv_15yr (years : ℤ) (mo : Option ℤ) :
    get_accumulated_depreciation_rcgv ("15yr") years mo =
      .ok (sumTo MACRS_15YR_HY years.toNat) := by
  rw [get_accumulated_depreciation_rcgv,
    accumOver_ok MACRS_15YR_HY _ (fun y => get_macrs_rcgv_15yr y mo) years]

theorem accum_rcgv_27_5yr (years m : ℤ) :
    get_accumulated_depreciation_rcgv ("27.5yr") years (some m) =
      .ok (sumTo (fun y => MACRS_27_5YR_MM y m) years.toNat) := by
  rw [get_accumulated_depreciation_rcgv,
    accumOver_ok (fun y => MACRS_27_5YR_MM y m) _
      (fun y => get_macrs_rcgv_27_5yr y m) years]

/-- Claim C4 names the first-year formula
`amount * b/100 + amount * (1 - b/100) * MACRS_year1/100` for every
short-life CapEx pool with bonus rate `b < 100`, in particular
`amount * MACRS_year1/100` for `b = 0`.  At the failing input — a
1000-dollar 5-year pool placed in service 2016-05-01, so `b = 0` —
the pool's first-year depreciation is 0, while the claimed formula
gives 200 and the pool's own accumulated depreciation through that
same year is 200: the year-1 branch for a 0-bonus pool falls through
to `return 0`. -/
theorem C4_capex_zero_bonus_year1 :
    poolC4.bonusRate = 0 ∧
    poolC4.assetClass = .k5 ∧
    capexPoolYearDep poolC4 2016 = .ok 0 ∧
    capexPoolAccumulated poolC4 2016 = .ok 200 ∧
    poolC4.amount * (poolC4.bonusRate / 100) +
      poolC4.amount * (1 - poolC4.bonusRate / 100) *
        (MACRS_5YR_HY 1 / 100) = 200 ∧
    (0 : ℚ) ≠ 200 := by
  refine ⟨rfl, rfl, rfl, ?_, ?_, by norm_num⟩
  · unfold capexPoolAccumulated
    rw [if_neg (by decide)]
    simp only [show poolC4.assetClass = ACKey.k5 from rfl, ACKey.isShortLife,
      ACKey.str, show poolC4.bonusRate = (0 : ℚ) from rfl,
      show poolC4.amount = (1000 : ℚ) from rfl,
      show (2016 - poolC4.pisDate.year + 1 : ℤ) = 1 from rfl]
    rw [if_pos trivial, if_neg (by norm_num), accum_rcgv_5yr 1 none, ok_bind,
      pure_eq_ok]
    norm_num [sumTo, MACRS_5YR_HY]
  · simp only [show poolC4.bonusRate = (0 : ℚ) from rfl,
      show poolC4.amount = (1000 : ℚ) from rfl]
    norm_num [MACRS_5YR_HY]

theorem mkDict_ok (f : ACKey → Except String ℚ) (V : ACKey → ℚ)
    (h : ∀ k, f k = .ok (V k)) : mkDict f = .ok V := by
  unfold mkDict
  rw [h .k5, ok_bind, h .k7, ok_bind, h .k15, ok_bind, h .k27_5, ok_bind,
    h .k39, ok_bind, h .k30, ok_bind, h .k40, ok_bind, pure_eq_ok]
  congr 1
  funext k
  cases k <;> rfl

/-- Claim C5: the §481(a) record is determined by the component
computations exactly as claimed.  `years_elapsed` is the CSS year
minus the acquisition year.  When it is 0, the catch-up is 0 and the
total first-year benefit is the current-year total, built from year-1
depreciation plus the CapEx contributions for the filing year.
Otherwise the catch-up is the accumulated cost-seg depreciation
through `years_elapsed` plus CapEx accumulated through the prior
filing year, minus the standard depreciation through `years_elapsed`;
the current-year detail is `current_year(years_elapsed + 1)` plus the
filing year's CapEx depreciation; and the benefit is catch-up plus
current-year total. -/
theorem C5_481a_structure (st : CalcState) (Y1 A C CA CC : ACKey → ℚ)
    (S : ℚ) :
    ((st.cssYear - st.acqYear = 0) →
      (∀ k, year1Class st k = .ok (Y1 k)) →
      aggregateCapex st.capexPools
        (fun pool => capexPoolYearDep pool st.cssYear) = .ok CC →
      calc481a st = .ok
        { yearsElapsed := 0
          shouldHaveTaken := 0
          didTake := 0
          catchUp := 0
          currentYearDep := fun k => Y1 k + CC k
          currentYearTotal := dictSum (fun k => Y1 k + CC k)
          totalBenefit := dictSum (fun k => Y1 k + CC k) }) ∧
    ((st.cssYear - st.acqYear ≠ 0) →
      (∀ k, accumClass st (st.cssYear - st.acqYear) k = .ok (A k)) →
      aggregateCapex st.capexPools
        (fun pool => capexPoolAccumulated pool (st.cssYear - 1)) = .ok CA →
      standardDep st (st.cssYear - st.acqYear) = .ok S →
      (∀ k, currentYearClass st (st.cssYear - st.acqYear + 1) k = .ok (C k)) →
      aggregateCapex st.capexPools
        (fun pool => capexPoolYearDep pool st.cssYear) = .ok CC →
      calc481a st = .ok
        { yearsElapsed := st.cssYear - st.acqYear
          shouldHaveTaken := dictSum (fun k => A k + CA k)
          didTake := S
          catchUp := dictSum (fun k => A k + CA k) - S
          currentYearDep := fun k => C k + CC k
          currentYearTotal := dictSum (fun k => C k + CC k)
          totalBenefit := (dictSum (fun k => A k + CA k) - S) +
            dictSum (fun k => C k + CC k) }) := by
  constructor
  · intro hye h1 hcc
    simp only [calc481a]
    rw [if_pos hye, mkDict_ok _ Y1 h1, ok_bind, hcc, ok_bind, pure_eq_ok]
  · intro hye ha hca hs hc hcc
    simp only [calc481a]
    rw [if_neg hye, mkDict_ok _ A ha, ok_bind, hca, ok_bind, hs, ok_bind,
      mkDict_ok _ C hc, ok_bind, hcc, ok_bind, pure_eq_ok]

theorem stC5_accum : ∀ k,
    accumClass stC5 (stC5.cssYear - stC5.acqYear) k = .ok (AC5 k) := by
  intro k
  rw [show stC5.cssYear - stC5.acqYear = (2 : ℤ) from rfl]
  cases k
  case k5 =>
    unfold accumClass
    rw [if_neg (by decide)]
    simp only [ACKey.isShortLife, ACKey.str]
    rw [if_pos trivial, if_neg (by decide), accum_rcgv_5yr 2 none, ok_bind,
      pure_eq_ok]
    congr 1
    norm_num [stC5, AC5, show ((2 : ℤ).toNat) = 2 from rfl, sumTo,
      MACRS_5YR_HY]
  all_goals rfl

theorem stC5_current : ∀ k,
    currentYearClass stC5 (stC5.cssYear - stC5.acqYear + 1) k =
      .ok (CY5 k) := by
  intro k
  rw [show stC5.cssYear - stC5.acqYear + 1 = (3 : ℤ) from rfl]
  cases k
  case k5 =>
    unfold currentYearClass
    rw [if_neg (by decide)]
    simp only [ACKey.isShortLife, ACKey.str]
    rw [if_pos trivial, if_neg (by decide), if_neg (by decide),
      get_macrs_rcgv_5yr 3 none, ok_bind, pure_eq_ok]
    congr 1
    norm_num [stC5, CY5, MACRS_5YR_HY]
  all_goals rfl

theorem stC5_standard :
    standardDep stC5 (stC5.cssYear - stC5.acqYear) = .ok 56.06 := by
  rw [show stC5.cssYear - stC5.acqYear = (2 : ℤ) from rfl]
  unfold standardDep
  simp only [show stC5.buildingClass = ACKey.k27_5 from rfl, ACKey.str,
    show stC5.acqMonth = (6 : ℤ) from rfl]
  rw [accum_rcgv_27_5yr 2 6, ok_bind, pure_eq_ok]
  congr 1
  norm_num [stC5, show ((2 : ℤ).toNat) = 2 from rfl, sumTo, MACRS_27_5YR_MM,
    MACRS_27_5YR_MM_Y1]

/-- Witness for C5 at `stC5`: the §481(a) record matches the claimed
composition, and its catch-up evaluates to
80.8 - 56.06 = 24.74 dollars. -/
theorem C5_481a_structure_witness :
    calc481a stC5 = .ok
      { yearsElapsed := stC5.cssYear - stC5.acqYear
        shouldHaveTaken := dictSum (fun k => AC5 k + ZD k)
        didTake := 56.06
        catchUp := dictSum (fun k => AC5 k + ZD k) - 56.06
        currentYearDep := fun k => CY5 k + ZD k
        currentYearTotal := dictSum (fun k => CY5 k + ZD k)
        totalBenefit := (dictSum (fun k => AC5 k + ZD k) - 56.06) +
          dictSum (fun k => CY5 k + ZD k) } ∧
    dictSum (fun k => AC5 k + ZD k) - 56.06 = 24.74 := by
  constructor
  · exact (C5_481a_structure stC5 ZD AC5 CY5 ZD ZD 56.06).2 (by decide)
      stC5_accum rfl stC5_standard stC5_current rfl
  · norm_num [dictSum, AC5, ZD]

theorem get_macrs_rcgv_39yr (y m : ℤ) :
    get_macrs_percentage_rcgv ("39yr") y (some m) =
      .ok (MACRS_39YR_MM y m) := rfl

/-- With a month supplied, the lookup succeeds for every class key the
calculator can carry: the unknown-class error branch is unreachable
from the calculator's dictionaries. -/
theorem get_macrs_rcgv_some_ok (k : ACKey) (y m : ℤ) :
    ∃ q, get_macrs_percentage_rcgv k.str y (some m) = .ok q := by
  cases k <;> exact ⟨_, rfl⟩

/-- Half-year classes succeed with any month argument, including
none. -/
theorem get_macrs_rcgv_short_ok (k : ACKey) (hk : k.isShortLife = true)
    (y : ℤ) (mo : Option ℤ) :
    ∃ q, get_macrs_percentage_rcgv k.str y mo = .ok q := by
  cases k <;> first
    | exact ⟨_, rfl⟩
    | simp [ACKey.isShortLife] at hk

theorem accumOver_ok_of (g : ℤ → Except String ℚ)
    (h : ∀ y, ∃ q, g y = .ok q) (years : ℤ) :
    ∃ q, accumOver g years = .ok q := by
  choose v hv using h
  exact ⟨_, accumOver_ok v g hv years⟩

theorem accum_rcgv_some_ok (k : ACKey) (years m : ℤ) :
    ∃ q, get_accumulated_depreciation_rcgv k.str years (some m) = .ok q :=
  accumOver_ok_of _ (fun y => get_macrs_rcgv_some_ok k y m) years

theorem accum_rcgv_short_ok (k : ACKey) (hk : k.isShortLife = true)
    (years : ℤ) (mo : Option ℤ) :
    ∃ q, get_accumulated_depreciation_rcgv k.str years mo = .ok q :=
  accumOver_ok_of _ (fun y => get_macrs_rcgv_short_ok k hk y mo) years

/-- Year-1 depreciation never hits an error branch, for any state and
class key. -/
theorem year1Class_ok (st : CalcState) (k : ACKey) :
    ∃ q, year1Class st k = .ok q := by
  unfold year1Class
  by_cases ha : st.allocated k = 0
  · rw [if_pos ha]
    exact ⟨0, rfl⟩
  · rw [if_neg ha]
    by_cases hk : k.isShortLife = true
    · rw [if_pos hk]
      by_cases hb : st.bonusRate = 100
      · rw [if_pos hb]
        exact ⟨_, rfl⟩
      · rw [if_neg hb]
        obtain ⟨q, hq⟩ := get_macrs_rcgv_short_ok k hk 1 none
        rw [hq, ok_bind]
        exact ⟨_, rfl⟩
    · rw [if_neg hk]
      obtain ⟨q, hq⟩ := get_macrs_rcgv_some_ok k 1 st.acqMonth
      rw [hq, ok_bind]
      exact ⟨_, rfl⟩

/-- Accumulated depreciation never hits an error branch. -/
theorem accumClass_ok (st : CalcState) (years : ℤ) (k : ACKey) :
    ∃ q, accumClass st years k = .ok q := by
  unfold accumClass
  by_cases h0 : st.allocated k = 0 ∨ years = 0
  · rw [if_pos h0]
    exact ⟨0, rfl⟩
  · rw [if_neg h0]
    by_cases hk : k.isShortLife = true
    · rw [if_pos hk]
      by_cases hb : st.bonusRate = 100
      · rw [if_pos hb]
        exact ⟨_, rfl⟩
      · rw [if_neg hb]
        obtain ⟨q, hq⟩ := accum_rcgv_short_ok k hk years none
        rw [hq, ok_bind]
        exact ⟨_, rfl⟩
    · rw [if_neg hk]
      obtain ⟨q, hq⟩ := accum_rcgv_some_ok k years st.acqMonth
      rw [hq, ok_bind]
      exact ⟨_, rfl⟩

/-- Current-year depreciation never hits an error branch. -/
theorem currentYearClass_ok (st : CalcState) (year : ℤ) (k : ACKey) :
    ∃ q, currentYearClass st year k = .ok q := by
  unfold currentYearClass
  by_cases ha : st.allocated k = 0
  · rw [if_pos ha]
    exact ⟨0, rfl⟩
  · rw [if_neg ha]
    by_cases hk : k.isShortLife = true
    · rw [if_pos hk]
      by_cases hb : st.bonusRate = 100
      · rw [if_pos hb]
        exact ⟨_, rfl⟩
      · rw [if_neg hb]
        by_cases hy : year = 1
        · rw [if_pos hy]
          obtain ⟨q, hq⟩ := get_macrs_rcgv_short_ok k hk 1 none
          rw [hq, ok_bind]
          exact ⟨_, rfl⟩
        · rw [if_neg hy]
          obtain ⟨q, hq⟩ := get_macrs_rcgv_short_ok k hk year none
          rw [hq, ok_bind]
          exact ⟨_, rfl⟩
    · rw [if_neg hk]
      obtain ⟨q, hq⟩ := get_macrs_rcgv_some_ok k year st.acqMonth
      rw [hq, ok_bind]
      exact ⟨_, rfl⟩

/-- Standard depreciation never hits an error branch. -/
theorem standardDep_ok (st : CalcState) (years : ℤ) :
    ∃ q, standardDep st years = .ok q := by
  unfold standardDep
  obtain ⟨q, hq⟩ := accum_rcgv_some_ok st.buildingClass years st.acqMonth
  rw [hq, ok_bind]
  exact ⟨_, rfl⟩

/-- Claim C2: under ADS the constructor remaps the building class to
30yr (multi-family) or 40yr (otherwise); lookups on the remapped class
with a month always succeed and return the (spec-modelled) ADS table
percentage, accumulation over them succeeds, and the calculator's
year-1, accumulated, current-year and standard depreciation — which
pass the acquisition month for that class — never reach the unknown
asset-class error branch. -/
theorem C2_ads_building_class (pt : String) (st : CalcState) (y : ℤ) :
    (pt = "multi-family" → initBuildingClass true pt = .k30) ∧
    (pt ≠ "multi-family" → initBuildingClass true pt = .k40) ∧
    (∀ m, get_macrs_percentage_rcgv (ACKey.str .k30) y (some m) =
      .ok (MACRS_30YR_MM y m)) ∧
    (∀ m, get_macrs_percentage_rcgv (ACKey.str .k40) y (some m) =
      .ok (MACRS_40YR_MM y m)) ∧
    (∀ m, ∃ q, get_accumulated_depreciation_rcgv (ACKey.str .k30) y
      (some m) = .ok q) ∧
    (∀ m, ∃ q, get_accumulated_depreciation_rcgv (ACKey.str .k40) y
      (some m) = .ok q) ∧
    (st.buildingClass = initBuildingClass true pt →
      (∃ q, year1Class st st.buildingClass = .ok q) ∧
      (∃ q, accumClass st y st.buildingClass = .ok q) ∧
      (∃ q, currentYearClass st y st.buildingClass = .ok q) ∧
      (∃ q, standardDep st y = .ok q)) := by
  refine ⟨?_, ?_, fun m => rfl, fun m => rfl,
    fun m => accum_rcgv_some_ok .k30 y m,
    fun m => accum_rcgv_some_ok .k40 y m, ?_⟩
  · intro hpt
    unfold initBuildingClass
    rw [if_pos rfl, if_pos hpt]
  · intro hpt
    unfold initBuildingClass
    rw [if_pos rfl, if_neg hpt]
  · intro _
    exact ⟨year1Class_ok st st.buildingClass,
      accumClass_ok st y st.buildingClass,
      currentYearClass_ok st y st.buildingClass,
      standardDep_ok st y⟩

/-- Witness for C2: the ADS multi-family building class is 30yr, its
year-3 lookup at month 6 returns the ADS percentage, and the standard
depreciation of the concrete ADS calculator succeeds. -/
theorem C2_ads_building_class_witness :
    initBuildingClass true ("multi-family") = .k30 ∧
    get_macrs_percentage_rcgv (ACKey.str .k30) 3 (some 6) =
      .ok (MACRS_30YR_MM 3 6) ∧
    (∃ q, standardDep stC2 3 = .ok q) := by
  have h := C2_ads_building_class ("multi-family") stC2 3
  exact ⟨h.1 rfl, h.2.2.1 6, (h.2.2.2.2.2.2 rfl).2.2.2⟩
